import Mathlib

/-!
# Verification of the Structured Query Adapter (autoswe)

Shallow embedding of `src/autoswe/structured.py`: the adapter that merges a
caller-supplied schema into request options, issues one request to the
external conversational service, and validates the terminal structured
payload against the schema.

The external service is modelled as the event stream it returns (a list of
messages, optionally interrupted by a transport error).  Pydantic schemas
are modelled as record-shape descriptors and `model_validate` as strict
structural validation (field presence and type checks), returning either a
validated record or a validation error naming the offending field and
constraint.
-/

namespace AutoSWE

/-- JSON-like values carried in structured payloads. -/
inductive JsonValue where
  | str (s : String)
  | int (n : Int)
  | bool (b : Bool)
  | list (xs : List JsonValue)
  | obj (fields : List (String × JsonValue))
  | null
deriving Repr

/-- A structured payload: the dict-of-fields the service returns in the
terminal result event, and likewise the shape of a validated record. -/
abbrev Record := List (String × JsonValue)

/-- Field types of a Pydantic model, as used by the adapter's schemas. -/
inductive FieldType where
  | string
  | integer
  | boolean
  | listOf (t : FieldType)
deriving Repr

/-- A Pydantic model class: an ordered list of required named fields. -/
structure Schema where
  fields : List (String × FieldType)
deriving Repr

/-- A Pydantic validation error: which field failed and which constraint. -/
structure ValidationError where
  field : String
  constraint : String
deriving Repr

/-- Human-readable name of a field type, used in validation error detail. -/
def typeName : FieldType → String
  | .string => "string"
  | .integer => "integer"
  | .boolean => "boolean"
  | .listOf _ => "array"

/-- Does a JSON value have the given field type?  Structural recursion on
the field type; list elements are checked pointwise. -/
def validateValue (t : FieldType) : JsonValue → Bool :=
  match t with
  | .string => fun v => match v with | .str _ => true | _ => false
  | .integer => fun v => match v with | .int _ => true | _ => false
  | .boolean => fun v => match v with | .bool _ => true | _ => false
  | .listOf t1 => fun v =>
      match v with
      | .list xs => xs.all (validateValue t1)
      | _ => false

/-- Validation of one field list against a payload: each schema field must
be present and well-typed; the validated record lists the schema's fields
in schema order with the payload's values. -/
def model_validate_fields : List (String × FieldType) → Record →
    Except ValidationError Record
  | [], _ => Except.ok []
  | (n, t) :: fs, payload =>
    match payload.lookup n with
    | none => Except.error ⟨n, "Field required"⟩
    | some v =>
      if validateValue t v then
        (model_validate_fields fs payload).map (fun r => (n, v) :: r)
      else
        Except.error ⟨n, "Input should be a valid " ++ typeName t⟩

/-- Pydantic `Schema.model_validate(payload)`: returns the validated record
or raises a validation error. -/
def model_validate (s : Schema) (payload : Record) :
    Except ValidationError Record :=
  model_validate_fields s.fields payload

/-- A record conforms to a schema when it has exactly the schema's fields,
in order, each value well-typed. -/
def conformsFields : List (String × FieldType) → Record → Bool
  | [], [] => true
  | (n, t) :: fs, (n1, v) :: rs =>
      n == n1 && validateValue t v && conformsFields fs rs
  | _, _ => false

/-- Schema conformance of a validated record. -/
def conforms (s : Schema) (rec : Record) : Bool :=
  conformsFields s.fields rec

/-- JSON-Schema fragment for one field type, as produced by Pydantic's
reflection (`model_json_schema`). -/
def typeSchema : FieldType → JsonValue
  | .string => .obj [("type", .str "string")]
  | .integer => .obj [("type", .str "integer")]
  | .boolean => .obj [("type", .str "boolean")]
  | .listOf t => .obj [("type", .str "array"), ("items", typeSchema t)]

/-- Pydantic `schema.model_json_schema()`: the portable JSON-Schema
descriptor transmitted to the service. -/
def model_json_schema (s : Schema) : JsonValue :=
  .obj [("type", .str "object"),
        ("properties", .obj (s.fields.map fun p => (p.1, typeSchema p.2))),
        ("required", .list (s.fields.map fun p => .str p.1))]

/-- The `output_format` directive built by `_merge_options`:
`{"type": "json_schema", "schema": schema.model_json_schema()}`. -/
structure OutputFormat where
  type : String
  schema : JsonValue
deriving Repr

/-- `ClaudeAgentOptions`, restricted to the fields the spec names: the
permission mode, the configuration sources, the thinking budget, and the
response-shape directive `output_format`.  All default to `none`, as in the
SDK's dataclass. -/
structure ClaudeAgentOptions where
  permission_mode : Option String := none
  setting_sources : Option (List String) := none
  max_thinking_tokens : Option Nat := none
  output_format : Option OutputFormat := none
deriving Repr

/-- `_merge_options(options, schema)`: derive the response-shape directive
from the schema; if `options` is `None` build fresh options carrying it,
otherwise `dataclasses.replace(options, output_format=...)`. -/
def _merge_options (options : Option ClaudeAgentOptions) (schema : Schema) :
    ClaudeAgentOptions :=
  let output_format : OutputFormat :=
    { type := "json_schema", schema := model_json_schema schema }
  match options with
  | none => { output_format := some output_format }
  | some o => { o with output_format := some output_format }

/-- Event messages streamed by the external service (`claude_agent_sdk`):
assistant turn fragments, system notices, and the terminal `ResultMessage`
whose `structured_output` is an optional dict. -/
inductive Message where
  | assistant (content : String)
  | system (notice : String)
  | result (structured_output : Option Record)
deriving Repr

/-- Is this message a `ResultMessage`? -/
def isResult : Message → Bool
  | .result _ => true
  | _ => false

/-- The Python truthiness test `isinstance(m, ResultMessage) and
m.structured_output`: a result message whose payload is present and is a
non-empty dict. -/
def hasPayload : Message → Bool
  | .result (some p) => !p.isEmpty
  | _ => false

/-- An error raised by the external service's transport during the
request. -/
structure TransportError where
  message : String
deriving Repr

/-- The response of one `query()` call: the events it yields before its
stream ends, and, when the transport itself fails mid-request, the error it
raises after those events. -/
structure QueryResponse where
  events : List Message
  transportError : Option TransportError := none
deriving Repr

/-- Errors surfaced by `structured_query`: the explicit Missing-Output
`ValueError`, a propagated Pydantic validation error, or a propagated
transport error. -/
inductive QueryError where
  | missingOutput (message : String)
  | validation (e : ValidationError)
  | transport (e : TransportError)
deriving Repr

/-- The body of the loop of `structured_query`: on an event satisfying
`isinstance(message, ResultMessage) and message.structured_output`, the
remembered payload is overwritten; otherwise it is kept. -/
def rememberPayload (acc : Option Record) (m : Message) : Option Record :=
  match m with
  | .result (some p) => if p.isEmpty then acc else some p
  | _ => acc

/-- The loop of `structured_query`: fold the loop body over the events,
starting from `structured_output = None`; the last non-empty structured
payload survives. -/
def lastPayload (events : List Message) : Option Record :=
  events.foldl rememberPayload none

/-- `structured_query(prompt, schema, options)` run against the response
stream of its single `query()` call: merge the options, consume the stream
remembering the last non-empty structured payload, then raise
Missing-Output if none was seen, else validate it against the schema.  A
transport error raised while iterating propagates unchanged (the loop body
never catches it). -/
def structured_query (prompt : String) (schema : Schema)
    (options : Option ClaudeAgentOptions) (response : QueryResponse) :
    Except QueryError Record :=
  let _merged := _merge_options options schema
  match response.transportError with
  | some e => Except.error (QueryError.transport e)
  | none =>
    match lastPayload response.events with
    | none =>
        Except.error
          (QueryError.missingOutput "No structured output received from query")
    | some p => (model_validate schema p).mapError QueryError.validation

/-- The generator body of `structured_query_stream` over a list of events:
each payload-bearing result message is yielded with its validated record,
every other message with `None`; a validation error aborts the generator
before that pair is yielded. -/
def streamEvents (schema : Schema) :
    List Message → List (Message × Option Record) × Option QueryError
  | [] => ([], none)
  | m :: rest =>
    match m with
    | .result (some p) =>
      if p.isEmpty then
        let (out, err) := streamEvents schema rest
        ((m, none) :: out, err)
      else
        match model_validate schema p with
        | .ok r =>
          let (out, err) := streamEvents schema rest
          ((m, some r) :: out, err)
        | .error e => ([], some (QueryError.validation e))
    | _ =>
        let (out, err) := streamEvents schema rest
        ((m, none) :: out, err)

/-- `structured_query_stream(prompt, schema, options)` run against the
response of its single `query()` call: the pairs it yields, plus the error
(validation or transport) that ends the stream early, if any. -/
def structured_query_stream (prompt : String) (schema : Schema)
    (options : Option ClaudeAgentOptions) (response : QueryResponse) :
    List (Message × Option Record) × Option QueryError :=
  let _merged := _merge_options options schema
  let (out, err) := streamEvents schema response.events
  match err with
  | some e => (out, some e)
  | none => (out, response.transportError.map QueryError.transport)

/-- `structured_query` instrumented with an attempt oracle: the service is
a queue of responses, one per request attempt; each `query()` call consumes
the front.  Returns the result together with the unconsumed attempts, so
the number of attempts made is observable. -/
def structured_query_service (prompt : String) (schema : Schema)
    (options : Option ClaudeAgentOptions) (attempts : List QueryResponse) :
    Except QueryError Record × List QueryResponse :=
  match attempts with
  | [] => (Except.error (QueryError.transport ⟨"service unavailable"⟩), [])
  | r :: rest => (structured_query prompt schema options r, rest)

/-- A heap of Python options objects; a reference is an index into the
heap.  In-place attribute mutation would overwrite an existing slot; fresh
allocation appends. -/
abbrev OptionsHeap := List ClaudeAgentOptions

/-- Dereference an options object. -/
def heapGet (h : OptionsHeap) (r : Nat) : Option ClaudeAgentOptions :=
  h[r]?

/-- `dataclasses.replace(options, output_format=fmt)`: reads the referenced
object and allocates a fresh copy with `output_format` replaced; the
original slot is never written. -/
def dataclasses_replace (h : OptionsHeap) (r : Nat) (fmt : OutputFormat) :
    OptionsHeap × Nat :=
  match h[r]? with
  | some o => (h ++ [{ o with output_format := some fmt }], h.length)
  | none => (h, r)

/-- `_merge_options` acting on the options heap: `None` base options
allocate fresh options; otherwise `dataclasses.replace` allocates the
merged copy.  Returns the new heap and a reference to the merged
options. -/
def _merge_options_heap (h : OptionsHeap) (base : Option Nat)
    (schema : Schema) : OptionsHeap × Nat :=
  let fmt : OutputFormat :=
    { type := "json_schema", schema := model_json_schema schema }
  match base with
  | none => (h ++ [{ output_format := some fmt }], h.length)
  | some r => dataclasses_replace h r fmt

/-- Does a message carry a non-empty structured payload that validates
against the schema?  This is the condition under which the streaming form
yields a non-absent result for the message. -/
def exceptIsOk : Except ValidationError Record → Bool
  | Except.ok _ => true
  | Except.error _ => false

/-- A message whose structured payload is present, non-empty and valid. -/
def validPayload (schema : Schema) : Message → Bool
  | .result (some p) => !p.isEmpty && exceptIsOk (model_validate schema p)
  | _ => false

/-! ## Concrete inputs used by the witnesses -/

/-- The spec's company-info scenario schema. -/
def companySchema : Schema :=
  ⟨[("name", .string), ("founded_year", .integer),
    ("headquarters", .string), ("key_products", .listOf .string)]⟩

/-- The spec's conforming terminal payload. -/
def acmePayload : Record :=
  [("name", .str "Acme"), ("founded_year", .int 1999),
   ("headquarters", .str "Springfield"),
   ("key_products", .list [.str "Widgets"])]

/-- The spec's non-conforming payload: `founded_year` holds a string. -/
def badYearPayload : Record :=
  [("name", .str "Acme"), ("founded_year", .str "not-a-number"),
   ("headquarters", .str "Springfield"),
   ("key_products", .list [.str "Widgets"])]

/-- Some caller-supplied base options, with the fields the spec names. -/
def exampleOptions : ClaudeAgentOptions :=
  { permission_mode := some "acceptEdits",
    setting_sources := some ["project"],
    max_thinking_tokens := some 8000 }

/-! ## Helper lemmas -/

theorem rememberPayload_of_not_hasPayload (acc : Option Record) (m : Message)
    (h : hasPayload m = false) : rememberPayload acc m = acc := by
  cases m with
  | assistant c => rfl
  | system n => rfl
  | result so =>
    cases so with
    | none => rfl
    | some p =>
      have hp : p.isEmpty = true := by simpa [hasPayload] using h
      simp [rememberPayload, hp]

theorem foldl_rememberPayload_of_all (es : List Message)
    (h : (es.all fun m => !(hasPayload m)) = true) :
    ∀ acc, es.foldl rememberPayload acc = acc := by
  induction es with
  | nil => intro acc; rfl
  | cons m rest ih =>
    intro acc
    rw [List.all_cons, Bool.and_eq_true] at h
    have hm : hasPayload m = false := by simpa using h.1
    rw [List.foldl_cons, rememberPayload_of_not_hasPayload acc m hm,
      ih h.2 acc]

theorem lastPayload_of_all_none (es : List Message)
    (h : (es.all fun m => !(hasPayload m)) = true) : lastPayload es = none :=
  foldl_rememberPayload_of_all es h none

theorem lastPayload_concat (es : List Message) (p : Record)
    (hp : p.isEmpty = false) :
    lastPayload (es ++ [Message.result (some p)]) = some p := by
  unfold lastPayload
  rw [List.foldl_append]
  simp [rememberPayload, hp]

theorem conformsFields_of_ok :
    ∀ (fs : List (String × FieldType)) (payload rec : Record),
      model_validate_fields fs payload = Except.ok rec →
      conformsFields fs rec = true := by
  intro fs
  induction fs with
  | nil =>
    intro payload rec h
    simp [model_validate_fields] at h
    subst h
    rfl
  | cons ft fs ih =>
    intro payload rec h
    obtain ⟨n, t⟩ := ft
    simp only [model_validate_fields] at h
    cases hl : payload.lookup n with
    | none => simp [hl] at h
    | some v =>
      simp only [hl] at h
      cases hv : validateValue t v with
      | false => simp [hv] at h
      | true =>
        simp only [hv, if_true] at h
        cases hm : model_validate_fields fs payload with
        | error e => simp [hm, Except.map] at h
        | ok r1 =>
          simp only [hm, Except.map] at h
          cases h
          simp [conformsFields, hv, ih payload r1 hm]

theorem streamEvents_cons_of_not_hasPayload (schema : Schema) (m : Message)
    (rest : List Message) (h : hasPayload m = false) :
    streamEvents schema (m :: rest) =
      ((m, none) :: (streamEvents schema rest).1,
       (streamEvents schema rest).2) := by
  rcases hse : streamEvents schema rest with ⟨out, err⟩
  cases m with
  | assistant c => simp [streamEvents, hse]
  | system n => simp [streamEvents, hse]
  | result so =>
    cases so with
    | none => simp [streamEvents, hse]
    | some p =>
      have hp : p.isEmpty = true := by simpa [hasPayload] using h
      simp [streamEvents, hp, hse]

theorem streamEvents_append_of_all (schema : Schema) (es rest : List Message)
    (h : (es.all fun m => !(hasPayload m)) = true) :
    streamEvents schema (es ++ rest) =
      ((es.map fun m => (m, none)) ++ (streamEvents schema rest).1,
       (streamEvents schema rest).2) := by
  induction es with
  | nil => simp
  | cons m es ih =>
    rw [List.all_cons, Bool.and_eq_true] at h
    have hm : hasPayload m = false := by simpa using h.1
    rw [List.cons_append,
      streamEvents_cons_of_not_hasPayload schema m (es ++ rest) hm, ih h.2]
    simp

theorem streamEvents_of_all (schema : Schema) (es : List Message)
    (h : (es.all fun m => !(hasPayload m)) = true) :
    streamEvents schema es = (es.map fun m => (m, none), none) := by
  have h1 := streamEvents_append_of_all schema es [] h
  simpa [streamEvents] using h1

theorem streamEvents_conforms (schema : Schema) :
    ∀ (es : List Message) (m : Message) (rec : Record),
      (m, some rec) ∈ (streamEvents schema es).1 →
      conforms schema rec = true := by
  intro es
  induction es with
  | nil => intro m rec h; simp [streamEvents] at h
  | cons x es ih =>
    intro m rec h
    rcases hse : streamEvents schema es with ⟨out, err⟩
    have hmem : (m, some rec) ∈ out → conforms schema rec = true := by
      intro h1
      exact ih m rec (by rw [hse]; exact h1)
    cases x with
    | assistant c =>
      simp [streamEvents, hse] at h
      exact hmem (by simpa using h)
    | system n =>
      simp [streamEvents, hse] at h
      exact hmem (by simpa using h)
    | result so =>
      cases so with
      | none =>
        simp [streamEvents, hse] at h
        exact hmem (by simpa using h)
      | some p =>
        cases hp : p.isEmpty with
        | true =>
          simp [streamEvents, hp, hse] at h
          exact hmem (by simpa using h)
        | false =>
          cases hval : model_validate schema p with
          | error e => simp [streamEvents, hp, hval] at h
          | ok r =>
            simp [streamEvents, hp, hval, hse] at h
            rcases h with ⟨hm1, hrec⟩ | h1
            · subst hrec
              exact conformsFields_of_ok schema.fields p rec hval
            · exact hmem h1

theorem structured_query_stream_fst (prompt : String) (schema : Schema)
    (options : Option ClaudeAgentOptions) (response : QueryResponse) :
    (structured_query_stream prompt schema options response).1 =
      (streamEvents schema response.events).1 := by
  rcases hse : streamEvents schema response.events with ⟨out, err⟩
  cases err <;> cases hte : response.transportError <;>
    simp [structured_query_stream, hse, hte]

theorem all_isNone_dropLast (l : List (Message × Option Record))
    (h : (l.all fun pr => pr.2.isNone) = true) :
    (l.dropLast.all fun pr => pr.2.isNone) = true := by
  rw [List.all_eq_true] at h ⊢
  intro x hx
  exact h x ((List.dropLast_sublist l).subset hx)

theorem map_none_all_isNone (es : List Message) :
    ((es.map fun m => (m, (none : Option Record))).all
      fun pr => pr.2.isNone) = true := by
  simp [List.all_map, Function.comp]

theorem map_none_filter_isSome (es : List Message) :
    ((es.map fun m => (m, (none : Option Record))).filter
      fun pr => pr.2.isSome) = [] := by
  induction es with
  | nil => rfl
  | cons m es ih => simp [List.filter, ih]

/-! ## Claim theorems -/

/-- C1: when the event stream ends with a terminal result event whose
non-empty structured payload validates against the schema, the blocking
form `structured_query` returns exactly the record produced by
`schema.model_validate(payload)`. -/
theorem structured_query_returns_validated_terminal_payload
    (prompt : String) (schema : Schema) (options : Option ClaudeAgentOptions)
    (es : List Message) (p rec : Record)
    (hp : p.isEmpty = false) (hv : model_validate schema p = Except.ok rec) :
    structured_query prompt schema options
      ⟨es ++ [Message.result (some p)], none⟩ = Except.ok rec := by
  simp [structured_query, lastPayload_concat es p hp, hv, Except.mapError]

/-- C1 witness: the company-info scenario.  The terminal payload
`{name: "Acme", founded_year: 1999, headquarters: "Springfield",
key_products: ["Widgets"]}` is returned with exactly those field values. -/
theorem structured_query_acme_scenario :
    structured_query "Describe a fictional company" companySchema none
      ⟨[Message.assistant "thinking", Message.result (some acmePayload)],
       none⟩ = Except.ok acmePayload :=
  structured_query_returns_validated_terminal_payload
    "Describe a fictional company" companySchema none
    [Message.assistant "thinking"] acmePayload acmePayload rfl rfl

/-- C3: when no event of the stream carries a non-empty structured payload
(in particular when the stream has no terminal result event, or its
terminal result event has no payload), `structured_query` fails with the
distinct Missing-Output `ValueError` and returns no record. -/
theorem structured_query_missing_output_error
    (prompt : String) (schema : Schema) (options : Option ClaudeAgentOptions)
    (es : List Message) (h : (es.all fun m => !(hasPayload m)) = true) :
    structured_query prompt schema options ⟨es, none⟩ =
      Except.error
        (QueryError.missingOutput "No structured output received from query") := by
  simp [structured_query, lastPayload_of_all_none es h]

/-- C3 witness: a stream of an assistant fragment, a system notice and a
terminal result event without payload makes `structured_query` fail with
the Missing-Output error. -/
theorem structured_query_missing_output_scenario :
    structured_query "Describe a fictional company" companySchema none
      ⟨[Message.assistant "thinking", Message.system "notice",
        Message.result none], none⟩ =
      Except.error
        (QueryError.missingOutput "No structured output received from query") :=
  structured_query_missing_output_error "Describe a fictional company"
    companySchema none
    [Message.assistant "thinking", Message.system "notice",
     Message.result none] rfl

/-- C4: when the terminal structured payload is present but violates the
schema, `structured_query` fails with the validation error produced by
`model_validate` — naming the offending field and constraint — and returns
no record. -/
theorem structured_query_propagates_validation_error
    (prompt : String) (schema : Schema) (options : Option ClaudeAgentOptions)
    (es : List Message) (p : Record) (e : ValidationError)
    (hp : p.isEmpty = false) (hv : model_validate schema p = Except.error e) :
    structured_query prompt schema options
      ⟨es ++ [Message.result (some p)], none⟩ =
      Except.error (QueryError.validation e) := by
  simp [structured_query, lastPayload_concat es p hp, hv, Except.mapError]

/-- C4 witness: the payload with `founded_year = "not-a-number"` makes
`structured_query` fail with a validation error naming the `founded_year`
field and the integer constraint. -/
theorem structured_query_bad_year_scenario :
    structured_query "Describe a fictional company" companySchema none
      ⟨[Message.assistant "thinking", Message.result (some badYearPayload)],
       none⟩ =
      Except.error
        (QueryError.validation
          ⟨"founded_year", "Input should be a valid integer"⟩) :=
  structured_query_propagates_validation_error
    "Describe a fictional company" companySchema none
    [Message.assistant "thinking"] badYearPayload
    ⟨"founded_year", "Input should be a valid integer"⟩ rfl rfl

/-- C9: when more than one event carries a non-empty structured payload,
the blocking form overwrites the remembered payload on each encounter and
validates and returns the last one. -/
theorem structured_query_keeps_last_payload
    (prompt : String) (schema : Schema) (options : Option ClaudeAgentOptions)
    (es1 es2 : List Message) (p q : Record)
    (hp : p.isEmpty = false) (hq : q.isEmpty = false) :
    structured_query prompt schema options
      ⟨es1 ++ [Message.result (some p)] ++ es2 ++ [Message.result (some q)],
       none⟩ =
      (model_validate schema q).mapError QueryError.validation := by
  have hl :=
    lastPayload_concat (es1 ++ [Message.result (some p)] ++ es2) q hq
  simp only [List.append_assoc, List.singleton_append, List.cons_append,
    List.nil_append] at hl
  simp [structured_query, hl]

/-- C9 witness: with two payload-bearing result events, the second payload
(the Acme record) is the one validated and returned; the first is
discarded. -/
theorem structured_query_two_payloads_scenario :
    structured_query "Describe a fictional company" companySchema none
      ⟨[] ++ [Message.result (some [("draft", JsonValue.bool true)])] ++
        [Message.assistant "revising"] ++ [Message.result (some acmePayload)],
       none⟩ =
      (model_validate companySchema acmePayload).mapError
        QueryError.validation :=
  structured_query_keeps_last_payload "Describe a fictional company"
    companySchema none [] [Message.assistant "revising"]
    [("draft", JsonValue.bool true)] acmePayload rfl rfl

/-- C2: every record the adapter emits conforms to the schema — whatever
the event stream, a record returned by `structured_query` or yielded
non-absent by `structured_query_stream` passed schema validation; the
adapter never produces a partial or best-effort object. -/
theorem adapter_results_conform_to_schema
    (prompt : String) (schema : Schema) (options : Option ClaudeAgentOptions)
    (response : QueryResponse) :
    (∀ rec : Record,
      structured_query prompt schema options response = Except.ok rec →
      conforms schema rec = true) ∧
    (∀ (m : Message) (rec : Record),
      (m, some rec) ∈ (structured_query_stream prompt schema options response).1 →
      conforms schema rec = true) := by
  constructor
  · intro rec h
    cases hte : response.transportError with
    | some e => simp [structured_query, hte] at h
    | none =>
      cases hlp : lastPayload response.events with
      | none => simp [structured_query, hte, hlp] at h
      | some p =>
        cases hval : model_validate schema p with
        | error e =>
          simp [structured_query, hte, hlp, hval, Except.mapError] at h
        | ok r =>
          simp [structured_query, hte, hlp, hval, Except.mapError] at h
          subst h
          exact conformsFields_of_ok schema.fields p r hval
  · intro m rec h
    rw [structured_query_stream_fst] at h
    exact streamEvents_conforms schema response.events m rec h

/-- C2 witness: the Acme record returned for the company-info stream does
conform to the company-info schema. -/
theorem adapter_results_conform_scenario :
    conforms companySchema acmePayload = true :=
  (adapter_results_conform_to_schema "Describe a fictional company"
      companySchema none
      ⟨[Message.result (some acmePayload)], none⟩).1 acmePayload rfl

/-- C5: merging a schema directive into referenced base options mutates no
pre-existing options object on the heap (in particular not the caller's),
and calling the merge twice with the same base reference and schema yields
equal merged options values. -/
theorem merge_options_no_mutation_and_repeatable
    (h : OptionsHeap) (r : Nat) (schema : Schema) (hr : r < h.length) :
    (∀ i, i < h.length →
      heapGet (_merge_options_heap h (some r) schema).1 i = heapGet h i) ∧
    heapGet (_merge_options_heap h (some r) schema).1
        (_merge_options_heap h (some r) schema).2 =
      heapGet
        (_merge_options_heap (_merge_options_heap h (some r) schema).1
          (some r) schema).1
        (_merge_options_heap (_merge_options_heap h (some r) schema).1
          (some r) schema).2 := by
  obtain ⟨o, ho⟩ : ∃ o, h[r]? = some o := by
    cases hyp : h[r]? with
    | none => rw [List.getElem?_eq_none_iff] at hyp; omega
    | some o => exact ⟨o, rfl⟩
  have h2 : ∀ x : ClaudeAgentOptions, (h ++ [x])[r]? = some o := by
    intro x
    rw [List.getElem?_append_left hr, ho]
  constructor
  · intro i hi
    simp only [_merge_options_heap, dataclasses_replace, ho, heapGet]
    exact List.getElem?_append_left hi
  · simp only [_merge_options_heap, dataclasses_replace, ho, heapGet, h2]
    rw [List.getElem?_concat_length, List.getElem?_concat_length]

/-- C5 witness: merging the company schema into a one-object heap leaves
the caller's options object unchanged, and a second merge with the same
inputs yields an equal merged value. -/
theorem merge_options_no_mutation_scenario :
    heapGet (_merge_options_heap [exampleOptions] (some 0) companySchema).1 0 =
      heapGet [exampleOptions] 0 ∧
    heapGet (_merge_options_heap [exampleOptions] (some 0) companySchema).1
        (_merge_options_heap [exampleOptions] (some 0) companySchema).2 =
      heapGet
        (_merge_options_heap
          (_merge_options_heap [exampleOptions] (some 0) companySchema).1
          (some 0) companySchema).1
        (_merge_options_heap
          (_merge_options_heap [exampleOptions] (some 0) companySchema).1
          (some 0) companySchema).2 :=
  ⟨(merge_options_no_mutation_and_repeatable [exampleOptions] 0 companySchema
      (by decide)).1 0 (by decide),
   (merge_options_no_mutation_and_repeatable [exampleOptions] 0 companySchema
      (by decide)).2⟩

/-- C6: for non-`None` base options, every field of the merged options
other than `output_format` equals the caller's field; only the
response-shape directive is overwritten with the schema-derived one. -/
theorem merge_options_preserves_other_fields (o : ClaudeAgentOptions)
    (schema : Schema) :
    (_merge_options (some o) schema).permission_mode = o.permission_mode ∧
    (_merge_options (some o) schema).setting_sources = o.setting_sources ∧
    (_merge_options (some o) schema).max_thinking_tokens =
      o.max_thinking_tokens ∧
    (_merge_options (some o) schema).output_format =
      some { type := "json_schema", schema := model_json_schema schema } :=
  ⟨rfl, rfl, rfl, rfl⟩

/-- C7: in the streaming form, when only the terminal event may carry a
structured payload (the collaborator contract), every non-terminal element
pairs its event with an absent result, and exactly one element carries a
non-absent result when the terminal payload is present and valid, zero
otherwise. -/
theorem stream_yields_at_most_one_result
    (prompt : String) (schema : Schema) (options : Option ClaudeAgentOptions)
    (es : List Message) (t : Message)
    (h : (es.all fun m => !(hasPayload m)) = true) :
    (((structured_query_stream prompt schema options
        ⟨es ++ [t], none⟩).1).dropLast.all fun pr => pr.2.isNone) = true ∧
    (((structured_query_stream prompt schema options
        ⟨es ++ [t], none⟩).1).filter fun pr => pr.2.isSome).length =
      if validPayload schema t then 1 else 0 := by
  have hfst : (structured_query_stream prompt schema options
      ⟨es ++ [t], none⟩).1 =
      (es.map fun m => (m, none)) ++ (streamEvents schema [t]).1 := by
    rw [structured_query_stream_fst]
    simp [streamEvents_append_of_all schema es [t] h]
  cases ht : hasPayload t with
  | false =>
    have hse : streamEvents schema [t] = ([(t, none)], none) := by
      rcases t with c | n | so
      · simp [streamEvents]
      · simp [streamEvents]
      · rcases so with _ | p
        · simp [streamEvents]
        · have hp : p.isEmpty = true := by simpa [hasPayload] using ht
          simp [streamEvents, hp]
    have hvp : validPayload schema t = false := by
      rcases t with c | n | so
      · rfl
      · rfl
      · rcases so with _ | p
        · rfl
        · have hp : p.isEmpty = true := by simpa [hasPayload] using ht
          simp [validPayload, hp]
    rw [hfst, hse, hvp]
    constructor
    · apply all_isNone_dropLast
      simp [List.all_append, map_none_all_isNone es]
    · simp [List.filter_append, map_none_filter_isSome es]
  | true =>
    rcases t with c | n | so
    · simp [hasPayload] at ht
    · simp [hasPayload] at ht
    · rcases so with _ | p
      · simp [hasPayload] at ht
      · have hp : p.isEmpty = false := by simpa [hasPayload] using ht
        cases hval : model_validate schema p with
        | ok r =>
          have hse : streamEvents schema [Message.result (some p)] =
              ([(Message.result (some p), some r)], none) := by
            simp [streamEvents, hp, hval]
          have hvp : validPayload schema (Message.result (some p)) = true := by
            simp [validPayload, hp, hval, exceptIsOk]
          rw [hfst, hse, hvp]
          constructor
          · rw [List.dropLast_concat]
            exact map_none_all_isNone es
          · simp [List.filter_append, map_none_filter_isSome es]
        | error e =>
          have hse : streamEvents schema [Message.result (some p)] =
              ([], some (QueryError.validation e)) := by
            simp [streamEvents, hp, hval]
          have hvp : validPayload schema (Message.result (some p)) = false := by
            simp [validPayload, hp, hval, exceptIsOk]
          rw [hfst, hse, hvp]
          constructor
          · apply all_isNone_dropLast
            simp [map_none_all_isNone es]
          · simp [map_none_filter_isSome es]

/-- C7 witness: for a stream of one assistant fragment followed by the
valid Acme terminal payload, the non-terminal element is absent and
exactly one element carries a non-absent result. -/
theorem stream_yields_at_most_one_result_scenario :
    (((structured_query_stream "Describe a fictional company" companySchema
        none ⟨[Message.assistant "thinking"] ++
          [Message.result (some acmePayload)], none⟩).1).dropLast.all
        fun pr => pr.2.isNone) = true ∧
    (((structured_query_stream "Describe a fictional company" companySchema
        none ⟨[Message.assistant "thinking"] ++
          [Message.result (some acmePayload)], none⟩).1).filter
        fun pr => pr.2.isSome).length =
      if validPayload companySchema (Message.result (some acmePayload))
      then 1 else 0 :=
  stream_yields_at_most_one_result "Describe a fictional company"
    companySchema none [Message.assistant "thinking"]
    (Message.result (some acmePayload)) rfl

/-- C8: each call makes exactly one request attempt — the service queue
loses exactly its front response, the outcome is independent of any
further queued responses (no retry, no fallback) — and a transport error
raised by the service propagates unchanged to the caller. -/
theorem structured_query_single_attempt_no_retry
    (prompt : String) (schema : Schema) (options : Option ClaudeAgentOptions)
    (r : QueryResponse) (rest rest1 : List QueryResponse) :
    (structured_query_service prompt schema options (r :: rest)).2 = rest ∧
    (structured_query_service prompt schema options (r :: rest)).1 =
      (structured_query_service prompt schema options (r :: rest1)).1 ∧
    ∀ e : TransportError, r.transportError = some e →
      (structured_query_service prompt schema options (r :: rest)).1 =
        Except.error (QueryError.transport e) := by
  refine ⟨rfl, rfl, ?_⟩
  intro e he
  simp [structured_query_service, structured_query, he]

/-- C8 witness: a transport failure ("connection reset") raised during the
single request attempt surfaces to the caller unchanged. -/
theorem structured_query_transport_scenario :
    (structured_query_service "Describe a fictional company" companySchema
        none (⟨[Message.assistant "thinking"],
          some ⟨"connection reset"⟩⟩ :: [])).1 =
      Except.error (QueryError.transport ⟨"connection reset"⟩) :=
  (structured_query_single_attempt_no_retry "Describe a fictional company"
      companySchema none
      ⟨[Message.assistant "thinking"], some ⟨"connection reset"⟩⟩ [] []).2.2
    ⟨"connection reset"⟩ rfl

/-- C10: an empty structured payload on the terminal result event is falsy
and treated as no structured output: `structured_query` raises the
Missing-Output error rather than returning a validated empty record, and
`structured_query_stream` pairs that event with an absent result. -/
theorem empty_payload_treated_as_missing
    (prompt : String) (schema : Schema) (options : Option ClaudeAgentOptions)
    (es : List Message) (h : (es.all fun m => !(hasPayload m)) = true) :
    structured_query prompt schema options
      ⟨es ++ [Message.result (some [])], none⟩ =
      Except.error
        (QueryError.missingOutput "No structured output received from query") ∧
    (structured_query_stream prompt schema options
        ⟨es ++ [Message.result (some [])], none⟩).1 =
      (es ++ [Message.result (some [])]).map fun m => (m, none) := by
  have hall : ((es ++ [Message.result (some [])]).all
      fun m => !(hasPayload m)) = true := by
    rw [List.all_append, Bool.and_eq_true]
    exact ⟨h, by rfl⟩
  constructor
  · simp [structured_query, lastPayload_of_all_none _ hall]
  · rw [structured_query_stream_fst]
    simp [streamEvents_of_all schema _ hall]

/-- C10 witness: with an assistant fragment and then a terminal result
event carrying an empty payload, the blocking form fails with
Missing-Output and the streaming form pairs both events with absent
results. -/
theorem empty_payload_treated_as_missing_scenario :
    structured_query "Describe a fictional company" companySchema none
      ⟨[Message.assistant "thinking"] ++ [Message.result (some [])], none⟩ =
      Except.error
        (QueryError.missingOutput "No structured output received from query") ∧
    (structured_query_stream "Describe a fictional company" companySchema
        none ⟨[Message.assistant "thinking"] ++ [Message.result (some [])],
          none⟩).1 =
      ([Message.assistant "thinking"] ++ [Message.result (some [])]).map
        fun m => (m, none) :=
  empty_payload_treated_as_missing "Describe a fictional company"
    companySchema none [Message.assistant "thinking"] rfl

end AutoSWE
